import Mathlib

set_option autoImplicit false

/-!
Verification of the pull-request auto-update pipeline: a shallow embedding of
the `AutoUpdater` class (eligibility decision `prNeedsUpdate`, the
GraphQL-to-REST conversion, the retrying `merge` state machine, the `update`
orchestration and the two enumeration loops), together with theorems settling
the specified properties. Network calls are abstracted as oracle functions
passed explicitly; every observable side effect (comparison calls, `conflicted`
outputs, merge attempts, sleeps, issued page queries) is reified in the return
value so the theorems can speak about it.
-/

namespace AutoUpdate

/-- Head repository of a pull request: `repo.name` and `repo.owner.login`. -/
structure Repo where
  name : String
  owner_login : String
deriving DecidableEq

/-- Value of the `auto_merge` field of a pull request object. In JavaScript
the field can be missing (`undefined`), explicitly `null`, or hold an object;
`prNeedsUpdate` tests it with strict equality against `null`, which
distinguishes the three cases, so all three are modelled. -/
inductive AutoMergeField where
  | undef
  | null
  | present
deriving DecidableEq

/-- Base side of a pull request: `base.ref`, `base.label`, `base.sha`. -/
structure BranchInfo where
  ref : String
  label : String
  sha : String
deriving DecidableEq

/-- Head side of a pull request; `repo` is `none` when the source fork has
been deleted (JavaScript `null`). -/
structure HeadInfo where
  ref : String
  label : String
  sha : String
  repo : Option Repo
deriving DecidableEq

/-- Canonical pull-request shape consumed by `prNeedsUpdate` and `update`
(the source's `UpdateablePullRequest` / octokit pull response). Each entry of
`labels` is the label's `name`, which can be undefined (`none`). -/
structure PullRequest where
  number : Nat
  state : String
  merged : Bool
  draft : Bool
  labels : List (Option String)
  base : BranchInfo
  head : HeadInfo
  auto_merge : AutoMergeField
deriving DecidableEq

/-- Configuration values read by the pipeline (the source's `ConfigLoader`
accessors, modelled as plain fields). -/
structure ConfigLoader where
  dryRun : Bool
  retryCount : Nat
  retrySleep : Nat
  mergeMsg : Option String
  mergeConflictAction : String
  excludedLabels : List String
  pullRequestReadyState : String
  pullRequestFilter : String
  pullRequestLabels : List String

/-- Arguments of one `compareCommitsWithBasehead` call. -/
structure CompareCall where
  owner : String
  repo : String
  basehead : String
deriving DecidableEq

/-- Test whether a label name (possibly undefined) occurs in a name list;
undefined names are skipped, as in the source's label loops. -/
def labelNameIn (names : List String) (label : Option String) : Bool :=
  match label with
  | none => false
  | some n => names.contains n

/-- Excluded-label guard of `prNeedsUpdate`: only runs when the excluded-label
list is non-empty, and skips labels with undefined names. -/
def hasExcludedLabel (cfg : ConfigLoader) (pull : PullRequest) : Bool :=
  decide (cfg.excludedLabels.length > 0) &&
    pull.labels.any (labelNameIn cfg.excludedLabels)

/-- Ready-state guard of `prNeedsUpdate`: `true` means the pull request is
skipped by the `PR_READY_STATE` filter. -/
def readyStateSkip (cfg : ConfigLoader) (pull : PullRequest) : Bool :=
  if cfg.pullRequestReadyState = "all" then false
  else if cfg.pullRequestReadyState = "draft" ∧ pull.draft = false then true
  else if cfg.pullRequestReadyState = "ready_for_review" ∧ pull.draft = true then true
  else false

/-- PR-filter dispatch at the end of `prNeedsUpdate`. The branch-protection
lookup (`octokit.rest.repos.getBranch`, abstracted as `getBranchProtected`
returning the branch's protected flag) is not wrapped in a try block in the
source, so its failure surfaces as `.error`. An unrecognized filter value
falls through to `true`, as in the source. -/
def prFilterCheck (cfg : ConfigLoader)
    (getBranchProtected : String → String → String → Except String Bool)
    (pull : PullRequest) (repo : Repo) : Except String Bool :=
  if cfg.pullRequestFilter = "labelled" then
    if cfg.pullRequestLabels.length = 0 then .ok false
    else if pull.labels.length = 0 then .ok false
    else .ok (pull.labels.any (labelNameIn cfg.pullRequestLabels))
  else if cfg.pullRequestFilter = "protected" then
    match getBranchProtected repo.owner_login repo.name pull.base.ref with
    | .error e => .error e
    | .ok isProtected => .ok isProtected
  else if cfg.pullRequestFilter = "auto_merge" then
    if pull.auto_merge = AutoMergeField.null then .ok false else .ok true
  else .ok true

/-- Arguments of the single `compareCommitsWithBasehead` call issued by
`prNeedsUpdate`: owner and name of the head repository, and `basehead` in the
direction head before base. -/
def compareCallOf (pull : PullRequest) (repo : Repo) : CompareCall :=
  { owner := repo.owner_login
    repo := repo.name
    basehead := pull.head.label ++ "..." ++ pull.base.label }

/-- Shallow embedding of `AutoUpdater.prNeedsUpdate`. The octokit comparison
call is abstracted as the oracle `compare` (returning `behind_by` on success);
the first component of the result collects every comparison call issued, in
order. A comparison failure is caught and yields `.ok false`; a
branch-protection lookup failure is uncaught and yields `.error`. -/
def prNeedsUpdate (cfg : ConfigLoader)
    (compare : CompareCall → Except String Nat)
    (getBranchProtected : String → String → String → Except String Bool)
    (pull : PullRequest) : List CompareCall × Except String Bool :=
  if pull.merged = true then ([], .ok false)
  else if pull.state ≠ "open" then ([], .ok false)
  else
    match pull.head.repo with
    | none => ([], .ok false)
    | some repo =>
      let call : CompareCall := compareCallOf pull repo
      match compare call with
      | .error _ => ([call], .ok false)
      | .ok behind_by =>
        if behind_by = 0 then ([call], .ok false)
        else if hasExcludedLabel cfg pull then ([call], .ok false)
        else if readyStateSkip cfg pull then ([call], .ok false)
        else ([call], prFilterCheck cfg getBranchProtected pull repo)

/-- JavaScript `String.prototype.toLowerCase` as used on the ASCII state
strings of the GraphQL response: lower-cases each character. Stated as a
structurally recursive map so it reduces definitionally (Lean's own
`String.toLower` is defined by well-founded recursion on positions). -/
def toLowerCase (s : String) : String :=
  String.mk (s.data.map Char.toLower)

/-- Label node of the GraphQL response (`name` is non-nullable there). -/
structure GraphQLLabelNode where
  name : String
deriving DecidableEq

/-- Commit target of a GraphQL ref. -/
structure GraphQLRefTarget where
  oid : String
deriving DecidableEq

/-- GraphQL `baseRef` / `headRef` node. -/
structure GraphQLRef where
  name : String
  target : GraphQLRefTarget
deriving DecidableEq

/-- GraphQL repository owner node. -/
structure GraphQLRepoOwner where
  login : String
deriving DecidableEq

/-- GraphQL `headRepository` node. -/
structure GraphQLHeadRepository where
  name : String
  owner : GraphQLRepoOwner
deriving DecidableEq

/-- One pull-request node of the GraphQL query response; `headRef` and
`headRepository` are nullable. -/
structure GraphQLPullRequestNode where
  number : Nat
  state : String
  merged : Bool
  mergeable : String
  isDraft : Bool
  labels : List GraphQLLabelNode
  baseRef : GraphQLRef
  headRef : Option GraphQLRef
  headRepository : Option GraphQLHeadRepository
deriving DecidableEq

/-- Shallow embedding of `AutoUpdater.convertGraphQLPRToREST`. A node whose
`headRef` is null is dropped (`none`). The object literal built by the source
does not set the `auto_merge` key, so the converted record's `auto_merge` is
`undef`. -/
def convertGraphQLPRToREST (pr : GraphQLPullRequestNode) (owner : String) :
    Option PullRequest :=
  match pr.headRef with
  | none => none
  | some headRef =>
    some {
      number := pr.number
      state := toLowerCase pr.state
      merged := pr.merged
      draft := pr.isDraft
      labels := pr.labels.map (fun l => some l.name)
      base := {
        ref := pr.baseRef.name
        label := owner ++ ":" ++ pr.baseRef.name
        sha := pr.baseRef.target.oid }
      head := {
        ref := headRef.name
        label :=
          match pr.headRepository with
          | some r => r.owner.login ++ ":" ++ headRef.name
          | none => headRef.name
        sha := headRef.target.oid
        repo := pr.headRepository.map (fun r =>
          { name := r.name, owner_login := r.owner.login }) }
      auto_merge := AutoMergeField.undef }

/-- Parameters of the `octokit.rest.repos.merge` call built by `update`. -/
structure MergeParameters where
  owner : String
  repo : String
  base : String
  head : String
  commit_message : Option String
deriving DecidableEq

/-- Value thrown by a failed merge call, as `AutoUpdater.merge` inspects it:
whether it is an `Error` instance, whether `isRequestError` holds, its HTTP
`status`, and its `message`. -/
structure ThrownValue where
  isError : Bool
  isRequestError : Bool
  status : Nat
  message : String
deriving DecidableEq

/-- Result of one `octokit.rest.repos.merge` call: HTTP status on success, or
a thrown value. -/
inductive MergeAttemptResult where
  | success (status : Nat)
  | failure (e : ThrownValue)
deriving DecidableEq

/-- Observable trace of one run of `AutoUpdater.merge`: the `conflicted`
outputs emitted through `setOutputFn`, in order; the number of merge calls
performed; and the sleeps performed (milliseconds each), in order. -/
structure MergeState where
  outputs : List Bool
  attempts : Nat
  sleeps : List Nat
deriving DecidableEq

/-- Terminal classification of a run of `AutoUpdater.merge`. The source
returns `true` on success, returns `false` on the auth-denied and
conflict-ignore paths, and re-throws on the conflict-fatal and
retry-exhausted paths (the carried value is the thrown error). -/
inductive MergeOutcome where
  | success
  | authDenied
  | conflictSkipped
  | conflictFatal (e : ThrownValue)
  | retryExhausted (e : ThrownValue)
deriving DecidableEq

/-- Whether the terminal classification involved a merge conflict. -/
def MergeOutcome.isConflictFinal : MergeOutcome → Bool
  | .conflictSkipped => true
  | .conflictFatal _ => true
  | _ => false

/-- Body of the `while (true)` retry loop in `AutoUpdater.merge`. `attemptFn i`
gives the result of the i-th merge call. The source counts attempts upward
(`retries`, compared against `retryCount`); here the loop carries the
equivalent remaining-retries count `retryCount - retries`, so the guard
`retries < retryCount` becomes `0 < remaining` and the recursion is structural
on `remaining`. -/
def mergeLoop (retrySleep : Nat) (mergeConflictAction sourceEventOwner : String)
    (mergeOpts : MergeParameters) (attemptFn : Nat → MergeAttemptResult) :
    Nat → MergeState → MergeState × MergeOutcome
  | remaining, st =>
    let st1 : MergeState := { st with attempts := st.attempts + 1 }
    match attemptFn st.attempts with
    | .success _ => ({ st1 with outputs := st1.outputs ++ [false] }, .success)
    | .failure e =>
      if e.isError = true ∧ e.isRequestError = true ∧ e.status = 403 ∧
          sourceEventOwner ≠ mergeOpts.owner then
        ({ st1 with outputs := st1.outputs ++ [false] }, .authDenied)
      else if e.isError = true ∧ e.message = "Merge conflict" then
        if mergeConflictAction = "ignore" then
          ({ st1 with outputs := st1.outputs ++ [true] }, .conflictSkipped)
        else
          ({ st1 with outputs := st1.outputs ++ [true] }, .conflictFatal e)
      else
        match remaining with
        | r + 1 =>
          mergeLoop retrySleep mergeConflictAction sourceEventOwner mergeOpts
            attemptFn r { st1 with sleeps := st1.sleeps ++ [retrySleep] }
        | 0 => ({ st1 with outputs := st1.outputs ++ [false] }, .retryExhausted e)

/-- Shallow embedding of `AutoUpdater.merge`: runs the retry loop from a fresh
trace with all `retryCount` retries remaining. -/
def merge (retryCount retrySleep : Nat)
    (mergeConflictAction sourceEventOwner : String)
    (mergeOpts : MergeParameters) (attemptFn : Nat → MergeAttemptResult) :
    MergeState × MergeOutcome :=
  mergeLoop retrySleep mergeConflictAction sourceEventOwner mergeOpts attemptFn
    retryCount { outputs := [], attempts := 0, sleeps := [] }

/-- Merge parameters built by `AutoUpdater.update` from the pull request's
head repository: base and head are intentionally swapped (the target branch is
merged into the source branch), and the commit message is attached only when
configured non-null and non-empty. -/
def mergeOptsOf (cfg : ConfigLoader) (pull : PullRequest) (repo : Repo) :
    MergeParameters :=
  { owner := repo.owner_login
    repo := repo.name
    base := pull.head.ref
    head := pull.base.ref
    commit_message :=
      match cfg.mergeMsg with
      | some msg => if msg.length > 0 then some msg else none
      | none => none }

/-- Observable trace of one run of `AutoUpdater.update`: the comparison calls
issued through `prNeedsUpdate`, and whether the error branch handling a null
head repository after the eligibility decision was entered. -/
structure UpdateTrace where
  compareCalls : List CompareCall
  nullRepoBranchHit : Bool
deriving DecidableEq

/-- Shallow embedding of `AutoUpdater.update`. The second component is an
uncaught exception (`.error`) or `.ok (isUpdated, setFailedCalled)`: fatal
throws from `merge` (conflict-fatal, retry-exhausted) are caught here and
`false` is returned, so they never surface as `.error` from `update` itself;
`ghCore.setFailed` is called only when the thrown value is an `Error`
instance (the source guards the catch body with `e instanceof Error`), hence
the flag is the thrown value's `isError`. The dry-run short circuit precedes
the null-head-repo check, as in the source. -/
def update (cfg : ConfigLoader)
    (compare : CompareCall → Except String Nat)
    (getBranchProtected : String → String → String → Except String Bool)
    (attemptFn : Nat → MergeAttemptResult)
    (sourceEventOwner : String) (pull : PullRequest) :
    UpdateTrace × Except String (Bool × Bool) :=
  let calls := (prNeedsUpdate cfg compare getBranchProtected pull).1
  match (prNeedsUpdate cfg compare getBranchProtected pull).2 with
  | .error e => ({ compareCalls := calls, nullRepoBranchHit := false }, .error e)
  | .ok false =>
    ({ compareCalls := calls, nullRepoBranchHit := false }, .ok (false, false))
  | .ok true =>
    if cfg.dryRun = true then
      ({ compareCalls := calls, nullRepoBranchHit := false }, .ok (true, false))
    else
      match pull.head.repo with
      | none =>
        ({ compareCalls := calls, nullRepoBranchHit := true }, .ok (false, false))
      | some repo =>
        match (merge cfg.retryCount cfg.retrySleep cfg.mergeConflictAction
            sourceEventOwner (mergeOptsOf cfg pull repo) attemptFn).2 with
        | .success =>
          ({ compareCalls := calls, nullRepoBranchHit := false }, .ok (true, false))
        | .authDenied =>
          ({ compareCalls := calls, nullRepoBranchHit := false }, .ok (false, false))
        | .conflictSkipped =>
          ({ compareCalls := calls, nullRepoBranchHit := false }, .ok (false, false))
        | .conflictFatal e =>
          ({ compareCalls := calls, nullRepoBranchHit := false },
            .ok (false, e.isError))
        | .retryExhausted e =>
          ({ compareCalls := calls, nullRepoBranchHit := false },
            .ok (false, e.isError))

/-- Inner loop of `AutoUpdater.pulls`: processes the enumerated pull requests
in order, threading the updated count and whether `ghCore.setFailed` has been
called; `oracle n` is the merge-attempt oracle for the pull request numbered
`n`. An exception escaping `update` aborts the loop. -/
def pullsLoop (cfg : ConfigLoader)
    (compare : CompareCall → Except String Nat)
    (getBranchProtected : String → String → String → Except String Bool)
    (oracle : Nat → Nat → MergeAttemptResult) (owner : String) :
    List PullRequest → Nat → Bool → Except String (Nat × Bool)
  | [], updated, failed => .ok (updated, failed)
  | pull :: rest, updated, failed =>
    match (update cfg compare getBranchProtected (oracle pull.number) owner pull).2 with
    | .error e => .error e
    | .ok (isUpdated, f) =>
      pullsLoop cfg compare getBranchProtected oracle owner rest
        (if isUpdated then updated + 1 else updated) (failed || f)

/-- One page of the GraphQL pull-request query response. -/
structure GraphQLPage where
  hasNextPage : Bool
  endCursor : Option String
  nodes : List GraphQLPullRequestNode

/-- Inner node loop of `AutoUpdater.pullsWithGraphQL`: converts each GraphQL
node and runs `update` on the result, skipping nodes dropped by the
conversion, threading the updated count and the run-failed flag. -/
def processNodes (cfg : ConfigLoader)
    (compare : CompareCall → Except String Nat)
    (getBranchProtected : String → String → String → Except String Bool)
    (oracle : Nat → Nat → MergeAttemptResult) (owner : String) :
    List GraphQLPullRequestNode → Nat → Bool → Except String (Nat × Bool)
  | [], updated, failed => .ok (updated, failed)
  | node :: rest, updated, failed =>
    match convertGraphQLPRToREST node owner with
    | none => processNodes cfg compare getBranchProtected oracle owner rest updated failed
    | some pull =>
      match (update cfg compare getBranchProtected (oracle pull.number) owner pull).2 with
      | .error e => .error e
      | .ok (isUpdated, f) =>
        processNodes cfg compare getBranchProtected oracle owner rest
          (if isUpdated then updated + 1 else updated) (failed || f)

/-- Page loop of `AutoUpdater.pullsWithGraphQL`. `pageFn i` is the result of
the i-th GraphQL query; `.error s` models a thrown request error of HTTP
status `s` (the status only selects the diagnostic logged — every failure is
handled the same way: the loop stops and the count gathered so far is
returned, with no retry). The result carries the updated count, the
run-failed flag, and the indices of the queries issued in order. `fuel`
bounds the modelled iterations; `none` means the bound was reached before the
loop exited, which no theorem relies on. -/
def gqlLoop (cfg : ConfigLoader)
    (compare : CompareCall → Except String Nat)
    (getBranchProtected : String → String → String → Except String Bool)
    (oracle : Nat → Nat → MergeAttemptResult) (owner : String)
    (pageFn : Nat → Except Nat GraphQLPage) :
    Nat → Nat → Nat → Bool → List Nat → Option (Except String (Nat × Bool × List Nat))
  | 0, _, _, _, _ => none
  | fuel + 1, pageIdx, updated, failed, queried =>
    match pageFn pageIdx with
    | .error _ => some (.ok (updated, failed, queried ++ [pageIdx]))
    | .ok page =>
      match processNodes cfg compare getBranchProtected oracle owner page.nodes
          updated failed with
      | .error e => some (.error e)
      | .ok (updated2, failed2) =>
        if page.hasNextPage = true then
          gqlLoop cfg compare getBranchProtected oracle owner pageFn fuel
            (pageIdx + 1) updated2 failed2 (queried ++ [pageIdx])
        else some (.ok (updated2, failed2, queried ++ [pageIdx]))

/-- Sequential processing of `count` successive pages starting at `pageIdx`,
as the page loop performs it: the accumulated updated count and run-failed
flag after those pages. A page whose query fails contributes nothing. -/
def pagesAccumFrom (cfg : ConfigLoader)
    (compare : CompareCall → Except String Nat)
    (getBranchProtected : String → String → String → Except String Bool)
    (oracle : Nat → Nat → MergeAttemptResult) (owner : String)
    (pageFn : Nat → Except Nat GraphQLPage) :
    Nat → Nat → Nat → Bool → Except String (Nat × Bool)
  | _, 0, updated, failed => .ok (updated, failed)
  | pageIdx, count + 1, updated, failed =>
    match pageFn pageIdx with
    | .error _ => .ok (updated, failed)
    | .ok page =>
      match processNodes cfg compare getBranchProtected oracle owner page.nodes
          updated failed with
      | .error e => .error e
      | .ok (updated2, failed2) =>
        pagesAccumFrom cfg compare getBranchProtected oracle owner pageFn
          (pageIdx + 1) count updated2 failed2

/-! Fixtures: concrete inputs used to evaluate the definitions. -/

/-- Comparison oracle reporting every pull request one commit behind. -/
def behindOne : CompareCall → Except String Nat := fun _ => .ok 1

/-- Comparison oracle reporting every pull request up to date. -/
def behindZero : CompareCall → Except String Nat := fun _ => .ok 0

/-- Comparison oracle that always fails. -/
def compareFails : CompareCall → Except String Nat := fun _ => .error "boom"

/-- Branch-protection oracle reporting every branch unprotected. -/
def noProtection : String → String → String → Except String Bool :=
  fun _ _ _ => .ok false

/-- Configuration with no filtering and no retries. -/
def plainCfg : ConfigLoader :=
  { dryRun := false, retryCount := 0, retrySleep := 5, mergeMsg := none,
    mergeConflictAction := "fail", excludedLabels := [],
    pullRequestReadyState := "all", pullRequestFilter := "all",
    pullRequestLabels := [] }

/-- Configuration selecting the `auto_merge` PR filter. -/
def autoMergeCfg : ConfigLoader :=
  { plainCfg with pullRequestFilter := "auto_merge" }

/-- Sample head repository. -/
def sampleRepo : Repo := { name := "repo", owner_login := "kaiko" }

/-- Sample open, unmerged pull request with a present head repository. -/
def samplePull : PullRequest :=
  { number := 7, state := "open", merged := false, draft := false, labels := [],
    base := { ref := "main", label := "kaiko:main", sha := "b0" },
    head := { ref := "feature", label := "kaiko:feature", sha := "h0",
              repo := some sampleRepo },
    auto_merge := AutoMergeField.null }

/-- Sample already-merged pull request. -/
def mergedPull : PullRequest := { samplePull with merged := true }

/-- Sample GraphQL node: open, unmerged, head ref and head repository
present. The GraphQL query does not request any auto-merge field, so the node
carries none by construction. -/
def autoMergeNode : GraphQLPullRequestNode :=
  { number := 1, state := "OPEN", merged := false, mergeable := "MERGEABLE",
    isDraft := false, labels := [],
    baseRef := { name := "main", target := { oid := "b0" } },
    headRef := some { name := "feature", target := { oid := "h0" } },
    headRepository := some { name := "repo", owner := { login := "kaiko" } } }

/-! Claim C1. -/

/-- C1: evaluation of the code at the failing input. The claim says that under
PR filter `auto_merge`, a pull request whose autoMerge metadata is absent is
not eligible, for summaries from both data sources including the
GraphQL-to-REST conversion. The code violates this: `convertGraphQLPRToREST`
never sets the `auto_merge` key, so the converted summary carries `undef`
(absent), yet `prNeedsUpdate` — which only rejects the strict value `null` —
returns `true` for it once all earlier guards pass (not merged, open, head
repo present, one commit behind, no excluded label, ready-state filter
`all`). -/
theorem autoMerge_absent_graphql_pull_eligible :
    ∃ pull, convertGraphQLPRToREST autoMergeNode "kaiko" = some pull ∧
      pull.auto_merge = AutoMergeField.undef ∧
      (prNeedsUpdate autoMergeCfg behindOne noProtection pull).2 = .ok true :=
  ⟨_, rfl, rfl, rfl⟩

/-! Claim C4. -/

/-- C4: for every pull request summary with `merged = true`, or with state not
equal to `open`, or with the head repository absent, `prNeedsUpdate` returns
`false` and issues no branch-comparison call (the list of comparison calls is
empty). -/
theorem prNeedsUpdate_early_guards_no_compare (cfg : ConfigLoader)
    (compare : CompareCall → Except String Nat)
    (getBranchProtected : String → String → String → Except String Bool)
    (pull : PullRequest)
    (h : pull.merged = true ∨ pull.state ≠ "open" ∨ pull.head.repo = none) :
    prNeedsUpdate cfg compare getBranchProtected pull = ([], .ok false) := by
  unfold prNeedsUpdate
  rcases h with h | h | h
  · simp [h]
  · by_cases hm : pull.merged = true <;> simp [hm, h]
  · by_cases hm : pull.merged = true
    · simp [hm]
    · by_cases hs : pull.state = "open" <;> simp [hm, hs, h]

/-- C4, witness: the guards fire on a concrete merged pull request. -/
theorem prNeedsUpdate_early_guards_no_compare_witness :
    prNeedsUpdate plainCfg behindOne noProtection mergedPull = ([], .ok false) :=
  prNeedsUpdate_early_guards_no_compare plainCfg behindOne noProtection
    mergedPull (Or.inl rfl)

/-! Claim C3. -/

/-- Evaluation of `prNeedsUpdate` once the three early guards have passed:
exactly one comparison call is issued, and the remaining guards inspect its
result. Shared shape lemma for the comparison-guard claims. -/
theorem prNeedsUpdate_eq_of_repo (cfg : ConfigLoader)
    (compare : CompareCall → Except String Nat)
    (getBranchProtected : String → String → String → Except String Bool)
    (pull : PullRequest) (repo : Repo)
    (hm : pull.merged = false) (hs : pull.state = "open")
    (hr : pull.head.repo = some repo) :
    prNeedsUpdate cfg compare getBranchProtected pull =
      (match compare (compareCallOf pull repo) with
       | .error _ => ([compareCallOf pull repo], .ok false)
       | .ok behind_by =>
         if behind_by = 0 then ([compareCallOf pull repo], .ok false)
         else if hasExcludedLabel cfg pull then ([compareCallOf pull repo], .ok false)
         else if readyStateSkip cfg pull then ([compareCallOf pull repo], .ok false)
         else ([compareCallOf pull repo],
           prFilterCheck cfg getBranchProtected pull repo)) := by
  unfold prNeedsUpdate
  simp [hm, hs, hr]

/-- C3: when `prNeedsUpdate` reaches its branch-comparison guard (the three
early guards pass), it issues exactly one comparison call, whose `basehead`
argument is the head label followed by `...` followed by the base label (head
before base); if the reported `behind_by` equals zero the result is `false`
regardless of the configured filters; and if the comparison call fails the
result is `false` rather than a propagated error, so the failure is not fatal
to the overall run. -/
theorem prNeedsUpdate_compare_guard (cfg : ConfigLoader)
    (compare : CompareCall → Except String Nat)
    (getBranchProtected : String → String → String → Except String Bool)
    (pull : PullRequest) (repo : Repo)
    (hm : pull.merged = false) (hs : pull.state = "open")
    (hr : pull.head.repo = some repo) :
    ((prNeedsUpdate cfg compare getBranchProtected pull).1 =
        [compareCallOf pull repo] ∧
      (compareCallOf pull repo).basehead =
        pull.head.label ++ "..." ++ pull.base.label) ∧
    (compare (compareCallOf pull repo) = .ok 0 →
      (prNeedsUpdate cfg compare getBranchProtected pull).2 = .ok false) ∧
    (∀ msg, compare (compareCallOf pull repo) = .error msg →
      (prNeedsUpdate cfg compare getBranchProtected pull).2 = .ok false) := by
  have he := prNeedsUpdate_eq_of_repo cfg compare getBranchProtected pull repo hm hs hr
  refine ⟨⟨?_, rfl⟩, ?_, ?_⟩
  · rw [he]
    rcases hc : compare (compareCallOf pull repo) with msg | bb
    · simp [hc]
    · simp only [hc]
      split_ifs <;> rfl
  · intro h0
    rw [he]
    simp [h0]
  · intro msg hmsg
    rw [he]
    simp [hmsg]

/-- C3, witness: with an up-to-date comparison oracle the result is false on a
concrete open pull request, via the zero-behind branch of the theorem. -/
theorem prNeedsUpdate_compare_guard_witness :
    (prNeedsUpdate plainCfg behindZero noProtection samplePull).2 = .ok false :=
  (prNeedsUpdate_compare_guard plainCfg behindZero noProtection samplePull
    sampleRepo rfl rfl rfl).2.1 rfl

/-! Claim C10. -/

/-- C10: whenever `prNeedsUpdate` returns `true` the pull request's head
repository is present (non-null); consequently the error branch of `update`
handling a null head repository after the eligibility decision is
unreachable — on every input, the trace records that this branch was not
entered, so the merge request's owner and repository fields are constructible
from `head.repo` without a null access. -/
theorem update_null_repo_branch_unreachable (cfg : ConfigLoader)
    (compare : CompareCall → Except String Nat)
    (getBranchProtected : String → String → String → Except String Bool)
    (attemptFn : Nat → MergeAttemptResult) (sourceEventOwner : String)
    (pull : PullRequest) :
    ((prNeedsUpdate cfg compare getBranchProtected pull).2 = .ok true →
      pull.head.repo ≠ none) ∧
    (update cfg compare getBranchProtected attemptFn sourceEventOwner
      pull).1.nullRepoBranchHit = false := by
  have hrepo : (prNeedsUpdate cfg compare getBranchProtected pull).2 = .ok true →
      pull.head.repo ≠ none := by
    intro h hnone
    have hz := prNeedsUpdate_early_guards_no_compare cfg compare getBranchProtected
      pull (Or.inr (Or.inr hnone))
    rw [hz] at h
    simp at h
  refine ⟨hrepo, ?_⟩
  unfold update
  rcases hp : (prNeedsUpdate cfg compare getBranchProtected pull).2 with e | b
  · simp [hp]
  · cases b
    · simp [hp]
    · simp only [hp]
      by_cases hd : cfg.dryRun = true
      · simp [hd]
      · rcases hr : pull.head.repo with _ | repo
        · exact absurd hr (hrepo hp)
        · simp only [hr, hd]
          rcases (merge cfg.retryCount cfg.retrySleep cfg.mergeConflictAction
              sourceEventOwner (mergeOptsOf cfg pull repo) attemptFn).2 <;> simp

/-- C10, witness: on a concrete eligible pull request the head repository is
present and the null-repo branch is not entered. -/
theorem update_null_repo_branch_unreachable_witness :
    samplePull.head.repo ≠ none ∧
    (update plainCfg behindOne noProtection (fun _ => .success 200) "kaiko"
      samplePull).1.nullRepoBranchHit = false :=
  ⟨(update_null_repo_branch_unreachable plainCfg behindOne noProtection
      (fun _ => .success 200) "kaiko" samplePull).1 rfl,
   (update_null_repo_branch_unreachable plainCfg behindOne noProtection
      (fun _ => .success 200) "kaiko" samplePull).2⟩

/-! Merge state machine: fixtures and claims C5, C6, C7, C8. -/

/-- Sample merge parameters targeting the `kaiko` head repository. -/
def sampleMergeOpts : MergeParameters :=
  { owner := "kaiko", repo := "repo", base := "feature", head := "main",
    commit_message := none }

/-- Thrown value with the merge-conflict signature (HTTP 409). -/
def conflictErr : ThrownValue :=
  { isError := true, isRequestError := true, status := 409,
    message := "Merge conflict" }

/-- Thrown value for a forbidden response. -/
def authErr : ThrownValue :=
  { isError := true, isRequestError := true, status := 403,
    message := "Forbidden" }

/-- Thrown value for a generic transient failure. -/
def genericErr : ThrownValue :=
  { isError := true, isRequestError := false, status := 500,
    message := "boom" }

/-- Classification of a thrown value taking the generic-failure path of the
retry loop: neither the forbidden-fork branch nor the merge-conflict branch
applies. -/
def genericThrow (e : ThrownValue) (sourceEventOwner : String)
    (mergeOpts : MergeParameters) : Prop :=
  ¬(e.isError = true ∧ e.isRequestError = true ∧ e.status = 403 ∧
      sourceEventOwner ≠ mergeOpts.owner) ∧
  ¬(e.isError = true ∧ e.message = "Merge conflict")

/-! Claim C7. -/

/-- C7: a first merge attempt failing with HTTP 403 where the source event
owner differs from the merge target owner ends the run immediately:
`conflicted` is recorded `false` once, exactly one attempt occurs, no sleep is
performed, and the terminal classification is the auth-denied return (failure
returned to the caller, not thrown). -/
theorem merge_forbidden_fork_single_attempt (retryCount retrySleep : Nat)
    (mergeConflictAction sourceEventOwner : String) (mergeOpts : MergeParameters)
    (attemptFn : Nat → MergeAttemptResult) (e : ThrownValue)
    (h0 : attemptFn 0 = .failure e)
    (herr : e.isError = true) (hreq : e.isRequestError = true)
    (hstatus : e.status = 403) (howner : sourceEventOwner ≠ mergeOpts.owner) :
    merge retryCount retrySleep mergeConflictAction sourceEventOwner mergeOpts
      attemptFn =
      ({ outputs := [false], attempts := 1, sleeps := [] },
        MergeOutcome.authDenied) := by
  unfold merge
  rw [mergeLoop.eq_def]
  simp [h0, herr, hreq, hstatus, howner]

/-- C7, witness: concrete forbidden failure against a fork owned by `kaiko`
while the source event owner is `someoneelse`. -/
theorem merge_forbidden_fork_single_attempt_witness :
    merge 4 7 "fail" "someoneelse" sampleMergeOpts (fun _ => .failure authErr) =
      ({ outputs := [false], attempts := 1, sleeps := [] },
        MergeOutcome.authDenied) :=
  merge_forbidden_fork_single_attempt 4 7 "fail" "someoneelse" sampleMergeOpts
    (fun _ => .failure authErr) authErr rfl rfl rfl rfl (by decide)

/-! Claim C5. -/

/-- C5: a first merge attempt failing with the merge-conflict signature (and
not classified as a forbidden-fork failure, which the source checks first)
records `conflicted = true`; with conflict action `ignore` the run ends after
exactly that one attempt as the conflict-skipped failure return (no retry, no
throw); with any other conflict action it ends after exactly that one attempt
as the conflict-fatal throw propagated to the caller. -/
theorem merge_conflict_single_attempt (retryCount retrySleep : Nat)
    (mergeConflictAction sourceEventOwner : String) (mergeOpts : MergeParameters)
    (attemptFn : Nat → MergeAttemptResult) (e : ThrownValue)
    (h0 : attemptFn 0 = .failure e)
    (herr : e.isError = true) (hmsg : e.message = "Merge conflict")
    (hnoauth : ¬(e.isRequestError = true ∧ e.status = 403 ∧
      sourceEventOwner ≠ mergeOpts.owner)) :
    merge retryCount retrySleep mergeConflictAction sourceEventOwner mergeOpts
      attemptFn =
      ({ outputs := [true], attempts := 1, sleeps := [] },
        if mergeConflictAction = "ignore" then MergeOutcome.conflictSkipped
        else MergeOutcome.conflictFatal e) := by
  have hcond : ¬(e.isError = true ∧ e.isRequestError = true ∧ e.status = 403 ∧
      sourceEventOwner ≠ mergeOpts.owner) := fun h => hnoauth h.2
  unfold merge
  rw [mergeLoop.eq_def]
  simp only [h0]
  rw [if_neg hcond, if_pos ⟨herr, hmsg⟩]
  split_ifs <;> rfl

/-- C5, witness: concrete conflict failure under the `ignore` conflict
action: one attempt, `conflicted = true`, failure returned without throwing. -/
theorem merge_conflict_single_attempt_witness :
    merge 4 7 "ignore" "kaiko" sampleMergeOpts (fun _ => .failure conflictErr) =
      ({ outputs := [true], attempts := 1, sleeps := [] },
        MergeOutcome.conflictSkipped) :=
  merge_conflict_single_attempt 4 7 "ignore" "kaiko" sampleMergeOpts
    (fun _ => .failure conflictErr) conflictErr rfl rfl rfl (by decide)

/-! Claim C6. -/

/-- Exhaustion lemma for the retry loop: if every attempt throws a value on
the generic-failure path, the loop performs one attempt per remaining retry
plus one, sleeping the configured delay before each retry, then emits
`conflicted = false` and throws the final error. -/
theorem mergeLoop_generic_exhausts (retrySleep : Nat)
    (mergeConflictAction sourceEventOwner : String) (mergeOpts : MergeParameters)
    (attemptFn : Nat → MergeAttemptResult) (err : Nat → ThrownValue)
    (hfail : ∀ i, attemptFn i = .failure (err i))
    (hgen : ∀ i, genericThrow (err i) sourceEventOwner mergeOpts) :
    ∀ (remaining : Nat) (st : MergeState),
      mergeLoop retrySleep mergeConflictAction sourceEventOwner mergeOpts
        attemptFn remaining st =
        ({ outputs := st.outputs ++ [false],
           attempts := st.attempts + remaining + 1,
           sleeps := st.sleeps ++ List.replicate remaining retrySleep },
         MergeOutcome.retryExhausted (err (st.attempts + remaining))) := by
  intro remaining
  induction remaining with
  | zero =>
    intro st
    rw [mergeLoop.eq_def]
    simp only [hfail st.attempts]
    rw [if_neg (hgen st.attempts).1, if_neg (hgen st.attempts).2]
    simp
  | succ r ih =>
    intro st
    rw [mergeLoop.eq_def]
    simp only [hfail st.attempts]
    rw [if_neg (hgen st.attempts).1, if_neg (hgen st.attempts).2]
    rw [ih]
    have h1 : st.attempts + 1 + r = st.attempts + (r + 1) := by omega
    simp [h1, List.replicate_succ, List.append_assoc]

/-- Attempt-count bound for the retry loop on any attempt oracle. -/
theorem mergeLoop_attempts_le (retrySleep : Nat)
    (mergeConflictAction sourceEventOwner : String) (mergeOpts : MergeParameters)
    (attemptFn : Nat → MergeAttemptResult) :
    ∀ (remaining : Nat) (st : MergeState),
      (mergeLoop retrySleep mergeConflictAction sourceEventOwner mergeOpts
        attemptFn remaining st).1.attempts ≤ st.attempts + remaining + 1 := by
  intro remaining
  induction remaining with
  | zero =>
    intro st
    rw [mergeLoop.eq_def]
    rcases h : attemptFn st.attempts with s | e <;> simp only [h]
    · simp
    · split_ifs <;> simp
  | succ r ih =>
    intro st
    rw [mergeLoop.eq_def]
    rcases h : attemptFn st.attempts with s | e <;> simp only [h]
    · simp
    · by_cases h1 : e.isError = true ∧ e.isRequestError = true ∧ e.status = 403 ∧
          sourceEventOwner ≠ mergeOpts.owner
      · rw [if_pos h1]
        simp
      · rw [if_neg h1]
        by_cases h2 : e.isError = true ∧ e.message = "Merge conflict"
        · rw [if_pos h2]
          split_ifs <;> simp
        · rw [if_neg h2]
          refine le_trans (ih _) ?_
          show st.attempts + 1 + r + 1 ≤ st.attempts + (r + 1) + 1
          omega

/-- C6: when every merge attempt fails with a generic error (neither a merge
conflict nor a forbidden-fork denial) and the configured retry count is `n`,
`merge` performs exactly `n + 1` attempts with a sleep of the configured delay
before each retry (`n` sleeps), records `conflicted = false` once, and throws
the final failure as retry-exhausted; moreover, on any attempt oracle
whatsoever, `merge` performs at most `n + 1` attempts, so it always
terminates within that bound. -/
theorem merge_generic_failure_retries (retryCount retrySleep : Nat)
    (mergeConflictAction sourceEventOwner : String) (mergeOpts : MergeParameters)
    (attemptFn : Nat → MergeAttemptResult) (err : Nat → ThrownValue)
    (hfail : ∀ i, attemptFn i = .failure (err i))
    (hgen : ∀ i, genericThrow (err i) sourceEventOwner mergeOpts) :
    merge retryCount retrySleep mergeConflictAction sourceEventOwner mergeOpts
      attemptFn =
      ({ outputs := [false], attempts := retryCount + 1,
         sleeps := List.replicate retryCount retrySleep },
       MergeOutcome.retryExhausted (err retryCount)) ∧
    ∀ g : Nat → MergeAttemptResult,
      (merge retryCount retrySleep mergeConflictAction sourceEventOwner
        mergeOpts g).1.attempts ≤ retryCount + 1 := by
  constructor
  · have h := mergeLoop_generic_exhausts retrySleep mergeConflictAction
      sourceEventOwner mergeOpts attemptFn err hfail hgen retryCount
      { outputs := [], attempts := 0, sleeps := [] }
    unfold merge
    rw [h]
    simp
  · intro g
    have h := mergeLoop_attempts_le retrySleep mergeConflictAction
      sourceEventOwner mergeOpts g retryCount
      { outputs := [], attempts := 0, sleeps := [] }
    unfold merge
    simpa using h

/-- C6, witness: with retry count 2 and a constantly failing generic attempt
oracle, exactly 3 attempts and 2 sleeps of the configured delay occur before
the retry-exhausted throw. -/
theorem merge_generic_failure_retries_witness :
    merge 2 7 "fail" "kaiko" sampleMergeOpts (fun _ => .failure genericErr) =
      ({ outputs := [false], attempts := 3, sleeps := [7, 7] },
        MergeOutcome.retryExhausted genericErr) :=
  (merge_generic_failure_retries 2 7 "fail" "kaiko" sampleMergeOpts
    (fun _ => .failure genericErr) (fun _ => genericErr)
    (fun _ => rfl)
    (fun _ => show genericThrow genericErr "kaiko" sampleMergeOpts from
      ⟨by decide, by decide⟩)).1

/-! Claim C8. -/

/-- Output-emission invariant of the retry loop: exactly one `conflicted`
output is appended over the whole attempt sequence, and its value is the
conflict flag of the terminal classification. -/
theorem mergeLoop_outputs_eq (retrySleep : Nat)
    (mergeConflictAction sourceEventOwner : String) (mergeOpts : MergeParameters)
    (attemptFn : Nat → MergeAttemptResult) :
    ∀ (remaining : Nat) (st : MergeState),
      (mergeLoop retrySleep mergeConflictAction sourceEventOwner mergeOpts
        attemptFn remaining st).1.outputs =
      st.outputs ++ [(mergeLoop retrySleep mergeConflictAction sourceEventOwner
        mergeOpts attemptFn remaining st).2.isConflictFinal] := by
  intro remaining
  induction remaining with
  | zero =>
    intro st
    rw [mergeLoop.eq_def]
    rcases h : attemptFn st.attempts with s | e <;> simp only [h]
    · simp [MergeOutcome.isConflictFinal]
    · split_ifs <;> simp [MergeOutcome.isConflictFinal]
  | succ r ih =>
    intro st
    rw [mergeLoop.eq_def]
    rcases h : attemptFn st.attempts with s | e <;> simp only [h]
    · simp [MergeOutcome.isConflictFinal]
    · by_cases h1 : e.isError = true ∧ e.isRequestError = true ∧ e.status = 403 ∧
          sourceEventOwner ≠ mergeOpts.owner
      · rw [if_pos h1]
        simp [MergeOutcome.isConflictFinal]
      · rw [if_neg h1]
        by_cases h2 : e.isError = true ∧ e.message = "Merge conflict"
        · rw [if_pos h2]
          split_ifs <;> simp [MergeOutcome.isConflictFinal]
        · rw [if_neg h2]
          exact ih _

/-- C8: in every execution of `merge` — any attempt oracle, any retry count,
any terminal classification — the `conflicted` output is set at most once,
and it is set to `true` exactly when the final outcome of the attempt
sequence was a merge conflict (conflict-skipped or conflict-fatal). -/
theorem merge_conflicted_set_once (retryCount retrySleep : Nat)
    (mergeConflictAction sourceEventOwner : String) (mergeOpts : MergeParameters)
    (attemptFn : Nat → MergeAttemptResult) :
    ((merge retryCount retrySleep mergeConflictAction sourceEventOwner mergeOpts
        attemptFn).1.outputs.length ≤ 1) ∧
    ((merge retryCount retrySleep mergeConflictAction sourceEventOwner mergeOpts
        attemptFn).1.outputs = [true] ↔
      (merge retryCount retrySleep mergeConflictAction sourceEventOwner mergeOpts
        attemptFn).2.isConflictFinal = true) := by
  have h := mergeLoop_outputs_eq retrySleep mergeConflictAction sourceEventOwner
    mergeOpts attemptFn retryCount { outputs := [], attempts := 0, sleeps := [] }
  unfold merge
  rw [h]
  simp

/-! Claim C2. -/

/-- Monotonicity of the run-failed flag in the enumeration loop: once set, it
is still set in the final result, and the accumulated updated count never
decreases over the remaining pull requests. -/
theorem pullsLoop_failed_mono (cfg : ConfigLoader)
    (compare : CompareCall → Except String Nat)
    (getBranchProtected : String → String → String → Except String Bool)
    (oracle : Nat → Nat → MergeAttemptResult) (owner : String) :
    ∀ (l : List PullRequest) (u n : Nat) (f : Bool),
      pullsLoop cfg compare getBranchProtected oracle owner l u true = .ok (n, f) →
      f = true ∧ u ≤ n := by
  intro l
  induction l with
  | nil =>
    intro u n f h
    unfold pullsLoop at h
    simp only [Except.ok.injEq, Prod.mk.injEq] at h
    exact ⟨h.2.symm, le_of_eq h.1⟩
  | cons p rest ih =>
    intro u n f h
    unfold pullsLoop at h
    rcases hu : (update cfg compare getBranchProtected (oracle p.number) owner
        p).2 with e | pr
    · rw [hu] at h
      cases h
    · obtain ⟨isUpd, f2⟩ := pr
      rw [hu] at h
      simp only [Bool.true_or] at h
      have h2 := ih _ _ _ h
      refine ⟨h2.1, le_trans ?_ h2.2⟩
      by_cases hi : isUpd = true <;> simp [hi]

/-- Thrown value that is not an `Error` instance (JavaScript allows throwing
arbitrary values); it takes the generic retry path of the merge loop but is
skipped by the `e instanceof Error` guard of the catch in `update`. -/
def nonErrorThrow : ThrownValue :=
  { isError := false, isRequestError := false, status := 0, message := "boom" }

/-- C2, counterexample: the claim as stated fails at a non-Error thrown
value. With retry count zero and every attempt throwing `nonErrorThrow`
(`isError = false`), `merge` ends in the fatal retry-exhausted
classification, yet `update` — whose catch body runs `ghCore.setFailed` only
under `e instanceof Error` — returns with the run NOT marked failed, against
the claim's "marks the overall run failed". -/
theorem fatal_merge_nonError_not_marked_failed :
    (merge plainCfg.retryCount plainCfg.retrySleep plainCfg.mergeConflictAction
      "kaiko" (mergeOptsOf plainCfg samplePull sampleRepo)
      (fun _ => MergeAttemptResult.failure nonErrorThrow)).2 =
      MergeOutcome.retryExhausted nonErrorThrow ∧
    (update plainCfg behindOne noProtection
      (fun _ => MergeAttemptResult.failure nonErrorThrow) "kaiko"
      samplePull).2 = .ok (false, false) :=
  ⟨rfl, rfl⟩

/-- C2 (amended): when `merge` ends in a fatal classification (conflict-fatal
or retry-exhausted) for a pull request that passed the eligibility decision,
and the thrown failure is an `Error` instance (which every failure thrown by
the merge API client is; the amendment is forced only by non-Error throws,
which the catch's `e instanceof Error` guard skips), the failure is caught at
the top of the call chain: `update` performs no further work for that pull
request and returns not-updated with `ghCore.setFailed` called (the overall
run is marked failed); the enumeration loop then continues from the same
accumulated count with the failed flag set, and whatever it returns still
carries the failed flag and a final count no smaller than the count
accumulated from the pull requests already processed. -/
theorem fatal_merge_marks_failed_preserves_count (cfg : ConfigLoader)
    (compare : CompareCall → Except String Nat)
    (getBranchProtected : String → String → String → Except String Bool)
    (oracle : Nat → Nat → MergeAttemptResult) (owner : String)
    (pull : PullRequest) (repo : Repo) (rest : List PullRequest)
    (updated : Nat) (failed : Bool) (e : ThrownValue)
    (hr : pull.head.repo = some repo)
    (hneeds : (prNeedsUpdate cfg compare getBranchProtected pull).2 = .ok true)
    (hdry : cfg.dryRun = false)
    (he : e.isError = true)
    (hfatal :
      (merge cfg.retryCount cfg.retrySleep cfg.mergeConflictAction owner
        (mergeOptsOf cfg pull repo) (oracle pull.number)).2 =
          MergeOutcome.conflictFatal e ∨
      (merge cfg.retryCount cfg.retrySleep cfg.mergeConflictAction owner
        (mergeOptsOf cfg pull repo) (oracle pull.number)).2 =
          MergeOutcome.retryExhausted e) :
    (update cfg compare getBranchProtected (oracle pull.number) owner pull).2 =
      .ok (false, true) ∧
    pullsLoop cfg compare getBranchProtected oracle owner (pull :: rest)
      updated failed =
      pullsLoop cfg compare getBranchProtected oracle owner rest updated true ∧
    (∀ n f2, pullsLoop cfg compare getBranchProtected oracle owner rest updated
        true = .ok (n, f2) → f2 = true ∧ updated ≤ n) := by
  have hupd : (update cfg compare getBranchProtected (oracle pull.number) owner
      pull).2 = .ok (false, true) := by
    unfold update
    simp only [hneeds, hdry, hr]
    rcases hfatal with h | h <;> simp [h, he]
  refine ⟨hupd, ?_, ?_⟩
  · conv_lhs => rw [pullsLoop]
    rw [hupd]
    simp
  · intro n f2 h
    exact pullsLoop_failed_mono cfg compare getBranchProtected oracle owner
      rest updated n f2 h

/-- C2, witness: a single eligible pull request whose only merge attempt fails
generically with retry count zero ends retry-exhausted; `update` reports
not-updated with the run marked failed. -/
theorem fatal_merge_marks_failed_preserves_count_witness :
    (update plainCfg behindOne noProtection (fun _ => .failure genericErr)
      "kaiko" samplePull).2 = .ok (false, true) :=
  (fatal_merge_marks_failed_preserves_count plainCfg behindOne noProtection
    (fun _ _ => .failure genericErr) "kaiko" samplePull sampleRepo [] 2 false
    genericErr rfl rfl rfl rfl (Or.inr rfl)).1

/-! Claim C9. -/

/-- Shifting lemma for query-index bookkeeping. -/
theorem range_map_add_shift (a n : Nat) :
    (List.range (n + 1)).map (fun i => a + i) =
      a :: (List.range n).map (fun i => a + 1 + i) := by
  rw [List.range_succ_eq_map]
  simp only [List.map_cons, List.map_map, Nat.add_zero]
  refine congrArg _ (List.map_congr_left ?_)
  intro x _
  simp only [Function.comp_apply]
  omega

/-- Page-loop abort lemma: if `count` successive queries starting at `pageIdx`
succeed with a further page each, their node processing succeeds, and the next
query fails, then the loop issues exactly those `count + 1` queries in order,
performs no retry, and returns the result accumulated over the `count`
successful pages as a normal (non-error) value. -/
theorem gqlLoop_abort_on_error (cfg : ConfigLoader)
    (compare : CompareCall → Except String Nat)
    (getBranchProtected : String → String → String → Except String Bool)
    (oracle : Nat → Nat → MergeAttemptResult) (owner : String)
    (pageFn : Nat → Except Nat GraphQLPage) :
    ∀ (count extra pageIdx updated : Nat) (failed : Bool) (queried : List Nat)
      (acc : Nat × Bool),
      (∀ i, i < count →
        ∃ page, pageFn (pageIdx + i) = .ok page ∧ page.hasNextPage = true) →
      (∃ s, pageFn (pageIdx + count) = .error s) →
      pagesAccumFrom cfg compare getBranchProtected oracle owner pageFn pageIdx
        count updated failed = .ok acc →
      gqlLoop cfg compare getBranchProtected oracle owner pageFn
        (extra + (count + 1)) pageIdx updated failed queried =
      some (.ok (acc.1, acc.2,
        queried ++ (List.range (count + 1)).map (fun i => pageIdx + i))) := by
  intro count
  induction count with
  | zero =>
    intro extra pageIdx updated failed queried acc hok herr hacc
    obtain ⟨s, hs⟩ := herr
    rw [Nat.add_zero] at hs
    unfold pagesAccumFrom at hacc
    simp only [Except.ok.injEq] at hacc
    show gqlLoop cfg compare getBranchProtected oracle owner pageFn
      (extra + 1) pageIdx updated failed queried = _
    rw [gqlLoop]
    rw [hs]
    simp [← hacc]
    rfl
  | succ c ih =>
    intro extra pageIdx updated failed queried acc hok herr hacc
    obtain ⟨page, hp, hn⟩ := hok 0 (Nat.succ_pos c)
    rw [Nat.add_zero] at hp
    unfold pagesAccumFrom at hacc
    simp only [hp] at hacc
    rcases hpn : processNodes cfg compare getBranchProtected oracle owner
        page.nodes updated failed with e2 | pr
    · simp [hpn] at hacc
    · obtain ⟨u2, f2⟩ := pr
      simp only [hpn] at hacc
      show gqlLoop cfg compare getBranchProtected oracle owner pageFn
        ((extra + (c + 1)) + 1) pageIdx updated failed queried = _
      rw [gqlLoop]
      simp only [hp, hpn]
      rw [if_pos hn]
      have hok2 : ∀ i, i < c →
          ∃ pg, pageFn (pageIdx + 1 + i) = .ok pg ∧ pg.hasNextPage = true := by
        intro i hi
        have := hok (i + 1) (by omega)
        rwa [show pageIdx + (i + 1) = pageIdx + 1 + i from by omega] at this
      have herr2 : ∃ s, pageFn (pageIdx + 1 + c) = .error s := by
        obtain ⟨s, hs⟩ := herr
        exact ⟨s, by rwa [show pageIdx + (c + 1) = pageIdx + 1 + c from by omega]
          at hs⟩
      have hrec := ih extra (pageIdx + 1) u2 f2 (queried ++ [pageIdx]) acc hok2
        herr2 hacc
      rw [hrec]
      rw [range_map_add_shift pageIdx (c + 1)]
      simp

/-- C9: if the GraphQL query for page `k` fails during enumeration — whatever
the error's status: authorization (401/403), rate limit (429), or anything
else — enumeration stops immediately: the queries issued are exactly pages 0
through `k`, each once and in order (no retry inside the enumerator, no page
after the failing one), and the loop returns the updated count accumulated
from the pages already processed as a normal non-error result, so the failure
is not fatal to the run. -/
theorem graphql_query_failure_returns_accumulated (cfg : ConfigLoader)
    (compare : CompareCall → Except String Nat)
    (getBranchProtected : String → String → String → Except String Bool)
    (oracle : Nat → Nat → MergeAttemptResult) (owner : String)
    (pageFn : Nat → Except Nat GraphQLPage) (k s extra : Nat) (acc : Nat × Bool)
    (hok : ∀ i, i < k → ∃ page, pageFn i = .ok page ∧ page.hasNextPage = true)
    (herr : pageFn k = .error s)
    (hacc : pagesAccumFrom cfg compare getBranchProtected oracle owner pageFn 0
      k 0 false = .ok acc) :
    gqlLoop cfg compare getBranchProtected oracle owner pageFn
      (extra + (k + 1)) 0 0 false [] =
    some (.ok (acc.1, acc.2, List.range (k + 1))) := by
  have h := gqlLoop_abort_on_error cfg compare getBranchProtected oracle owner
    pageFn k extra 0 0 false [] acc
    (by intro i hi; simpa using hok i hi) ⟨s, by simpa using herr⟩ hacc
  rw [h]
  simp

/-- C9, witness: the very first query fails with status 401; the loop issues
exactly that one query and returns the zero count as a non-error result. -/
theorem graphql_query_failure_returns_accumulated_witness :
    gqlLoop plainCfg behindOne noProtection (fun _ _ => .success 200) "kaiko"
      (fun _ => .error 401) 1 0 0 false [] =
      some (.ok (0, false, [0])) :=
  graphql_query_failure_returns_accumulated plainCfg behindOne noProtection
    (fun _ _ => .success 200) "kaiko" (fun _ => .error 401) 0 401 0 (0, false)
    (fun i hi => absurd hi (Nat.not_lt_zero i)) rfl rfl

end AutoUpdate
